import Mathlib

/-
Formal model of the git-process execution layer of the repository
(the module providing the git function, the GitError class, the error
describer and the config-lock-file helpers).

Conventions of the shallow embedding:
  * Buffers are modelled as strings of their decoded characters, so the
    coercion helpers are identities.
  * JavaScript objects holding optional keys are modelled as structures
    with Option fields; an absent key is none.  The model identifies a
    key that is present with value undefined with an absent key, which is
    the reading the TypeScript optional-field types suggest.
  * The subprocess itself, together with the stream pipeline that feeds
    the bounded tail buffer, is external to this slice; a single run is
    therefore represented by an explicit ExecOutcome value plus the
    terminal-output snapshot that the pipeline produced.
  * Exceptions are modelled with Except; every place the source throws
    becomes an Except.error carrying a GitException value.
-/

/-- The closed enumeration of recognized Git failure categories (the
dugite GitError enum, imported by the source as DugiteError).  The
constructors are exactly the members referenced by the source module;
the defensive exhaustiveness assertion in getDescriptionForError
guarantees, in the source language, that this list covers the pinned
upstream enumeration. -/
inductive DugiteError where
  | SSHAuthenticationFailed
  | SSHPermissionDenied
  | HTTPSAuthenticationFailed
  | BadConfigValue
  | SSHKeyAuditUnverified
  | RemoteDisconnection
  | HostDown
  | RebaseConflicts
  | MergeConflicts
  | HTTPSRepositoryNotFound
  | SSHRepositoryNotFound
  | PushNotFastForward
  | BranchDeletionFailed
  | DefaultBranchDeletionFailed
  | RevertConflicts
  | EmptyRebasePatch
  | NoMatchingRemoteBranch
  | NothingToCommit
  | NoSubmoduleMapping
  | SubmoduleRepositoryDoesNotExist
  | InvalidSubmoduleSHA
  | LocalPermissionDenied
  | InvalidMerge
  | InvalidRebase
  | NonFastForwardMergeIntoEmptyHead
  | PatchDoesNotApply
  | BranchAlreadyExists
  | BadRevision
  | NotAGitRepository
  | ProtectedBranchForcePush
  | ProtectedBranchRequiresReview
  | PushWithFileSizeExceedingLimit
  | HexBranchNameRejected
  | ForcePushRejected
  | InvalidRefLength
  | CannotMergeUnrelatedHistories
  | PushWithPrivateEmail
  | LFSAttributeDoesNotMatch
  | ProtectedBranchDeleteRejected
  | ProtectedBranchRequiredStatus
  | BranchRenameFailed
  | PathDoesNotExist
  | InvalidObjectName
  | OutsideRepository
  | LockFileAlreadyExists
  | NoMergeToAbort
  | NoExistingRemoteBranch
  | LocalChangesOverwritten
  | UnresolvedConflicts
  | ConfigLockFileAlreadyExists
  | RemoteAlreadyExists
  | TagAlreadyExists
  | MergeWithLocalChanges
  | RebaseWithLocalChanges
  | GPGFailedToSignData
  | ConflictModifyDeletedInBranch
  | MergeCommitNoMainlineOption
  | UnsafeDirectory
  | PathExistsButNotInRef
  deriving DecidableEq, Repr, Fintype

/-- Platform flag for the macOS build.  The model is the POSIX,
non-macOS build of the application. -/
def darwinPlatform : Bool := false

/-- Platform flag for the Windows build.  The model is the POSIX build,
matching the forward-slash absolute paths of the scenarios. -/
def win32Platform : Bool := false

/-- Buffers are modelled as strings, so coercion is the identity. -/
def coerceToString (value : String) : String := value

/-- An environment object: a finite partial assignment of variable
names to values, modelled extensionally. -/
abbrev EnvMap := String → Option String

/-- The empty environment object. -/
def emptyEnv : EnvMap := fun _ => none

/-- JavaScript object spread of two environments: bindings of the
second override bindings of the first.  Also the model of the shallow
merge helper of the repository (modelled from the spec: the ambient
environment is merged over the caller-supplied one). -/
def mergeEnv (a b : EnvMap) : EnvMap := fun k =>
  match b k with
  | some v => some v
  | none => a k

/-- The JavaScript numbers the source uses for the maxBuffer option:
Infinity, the Node buffer constant kStringMaxLength (a large finite cap
whose exact magnitude is platform dependent, kept abstract as a
distinguished value), or an explicit byte count supplied by a caller. -/
inductive MaxBufferValue where
  | infinity
  | kStringMaxLength
  | byteCount (n : Nat)
  deriving DecidableEq, Repr

/-- The execution options of the git function (IGitExecutionOptions
extending the dugite execution options).  Only the fields this slice
reads are modelled; an absent optional key is none. -/
structure IGitExecutionOptions where
  successExitCodes : Option (Finset Int) := none
  expectedErrors : Option (Finset DugiteError) := none
  encoding : Option String := none
  maxBuffer : Option MaxBufferValue := none
  env : Option EnvMap := none
  isBackgroundTask : Option Bool := none

/-- The result of using git: the dugite result extended with the parsed
error, its description and the working-directory path. -/
structure IGitResult where
  exitCode : Int
  stdout : String
  stderr : String
  gitError : Option DugiteError
  gitErrorDescription : Option String
  path : String
  deriving DecidableEq, Repr

/-- The GitError class: the structured failure thrown by git. -/
structure GitError where
  result : IGitResult
  args : List String
  message : String
  isRawMessage : Bool
  deriving DecidableEq, Repr

/-- The GitError constructor (source lines 267 to 295): picks the
message from the parsed description, else the terminal output, else
stderr, else stdout, else a generic text, and records whether the
message is raw command output. -/
def GitError.make (result : IGitResult) (args : List String)
    (terminalOutput : String) : GitError :=
  let picked : String × Bool :=
    match result.gitErrorDescription with
    | some d => (d, false)
    | none =>
      if terminalOutput.length > 0 then (terminalOutput, true)
      else if result.stderr.length != 0 then (coerceToString result.stderr, true)
      else if result.stdout.length != 0 then (coerceToString result.stdout, true)
      else ("Unknown error (exit code " ++ toString result.exitCode ++ ")", false)
  { result := result, args := args, message := picked.1, isRawMessage := picked.2 }

/-- Outcome of the underlying subprocess layer for one invocation: a
completed run with an exit code and captured output, a Node errno
exception at spawn level, the max-buffer-exceeded exec error, or any
other exception propagating out of the execution primitive. -/
inductive ExecOutcome where
  | completed (exitCode : Int) (stdout stderr : String)
  | errnoException (code : String)
  | maxBufferExceeded (message stdout stderr : String)
  | otherFailure (message : String)
  deriving DecidableEq, Repr

/-- The exceptions the git function can propagate. -/
inductive GitException where
  | gitError (e : GitError)
  | plainError (message : String)
  | execError (message stdout stderr : String)
  | otherError (message : String)
  deriving DecidableEq, Repr

/-- Extracts the message of a thrown structured GitError, if the value
is such a failure. -/
def thrownGitErrorMessage : Except GitException IGitResult → Option String
  | .error (.gitError g) => some g.message
  | _ => none

/-- The key and value extracted from a bad-config-value diagnostic. -/
structure ConfigValueInfo where
  key : String
  value : String
  deriving DecidableEq, Repr

/-- A runtime value of the dugite error enumeration: either a genuine
member, or, to model the defensive default branch of the describer, a
value outside the closed enumeration carried as its string rendering. -/
abbrev DugiteErrorValue := DugiteError ⊕ String

/-- String rendering of a runtime enum value, used only in the text of
the defensive assertion message. -/
def dugiteErrorValueText : DugiteErrorValue → String
  | Sum.inl e => reprStr e
  | Sum.inr s => s

/-- isAuthFailureError (source lines 485 to 498): the three codes the
module treats as authentication failures. -/
def isAuthFailureError (error : DugiteError) : Bool :=
  match error with
  | .SSHAuthenticationFailed => true
  | .SSHPermissionDenied => true
  | .HTTPSAuthenticationFailed => true
  | _ => false

/-- Lifts the authentication-failure test to runtime enum values; an
unknown value is not one of the three members. -/
def isAuthFailureValue : DugiteErrorValue → Bool
  | Sum.inl e => isAuthFailureError e
  | Sum.inr _ => false

/-- The consolidated authentication-failure description string. -/
def authFailureDescription : String :=
  let menuHint := if darwinPlatform then "GitHub Desktop > 设置。" else "文件 > 设置。"
  "身份认证失败，通常可能是因为：\n\n- 您尚未登录您的账号：见 " ++ menuHint
    ++ "\n- 您可能需要退出并重新登录来刷新登录令牌。"
    ++ "\n- 您没有该仓库的访问权限。"
    ++ "\n- 该仓库在 GitHub 上已经被存档，请检查仓库设置来确定您是否仍有权推送提交。"
    ++ "\n- 使用 SSH 认证时，您的私钥不正确，请检查登录密钥是否已添加到 ssh-agent 并与您的账号相关联。"
    ++ "\n- 使用 SSH 认证时，对方公钥不匹配，请检查您的仓库托管服务是否通过了主机密钥验证。"
    ++ "\n- 使用账号密码认证时，您可能需要把个人访问令牌作为密码来输入，具体请查阅您的仓库托管服务的文档。"

/-- The result of running the describer: either the value the switch
yields (a description or null), or the loud unknown-error assertion of
the default branch. -/
inductive DescriberOutcome where
  | value (description : Option String)
  | assertNeverCalled (message : String)
  deriving DecidableEq, Repr

/-- getDescriptionForError (source lines 537 to 673).  The dugite
helper parseBadConfigValueErrorInfo is an external import and is passed
as a parameter.  The input is a runtime enum value so that the
defensive default branch is part of the model: values outside the
closed enumeration fall through every case into the loud assertion. -/
def getDescriptionForError
    (parseBadConfigValueErrorInfo : String → Option ConfigValueInfo)
    (error : DugiteErrorValue) (stderr : String) : DescriberOutcome :=
  if isAuthFailureValue error then
    .value (some authFailureDescription)
  else
    match error with
    | Sum.inl .BadConfigValue =>
      match parseBadConfigValueErrorInfo stderr with
      | none => .value (some "Git 配置文件的值有误。")
      | some errorInfo =>
        .value (some ("Git 配置文件中键 \x27" ++ errorInfo.key
          ++ "\x27 的值 \x27" ++ errorInfo.value ++ "\x27 有误。"))
    | Sum.inl .SSHKeyAuditUnverified => .value (some "SSH 密钥未验证。")
    | Sum.inl .RemoteDisconnection => .value (some "远程端已断开连接，请检查网络连接并重试。")
    | Sum.inl .HostDown => .value (some "服务器不可用，请检查网络连接并重试。")
    | Sum.inl .RebaseConflicts => .value (some "重构出现冲突，请先解决冲突再继续。")
    | Sum.inl .MergeConflicts => .value (some "合并出现冲突，请先解决冲突并提交。")
    | Sum.inl .HTTPSRepositoryNotFound => .value (some "仓库不存在，可能您没有访问权限，或者它已经被删除或重命名了。")
    | Sum.inl .SSHRepositoryNotFound => .value (some "仓库不存在，可能您没有访问权限，或者它已经被删除或重命名了。")
    | Sum.inl .PushNotFastForward => .value (some "在您上次拉取过后，仓库有更新，您在推送前需要先拉取更新。")
    | Sum.inl .BranchDeletionFailed => .value (some "无法删除分支，它可能已经被删掉了。")
    | Sum.inl .DefaultBranchDeletionFailed => .value (some "此分支是仓库的默认分支，不可以删除。")
    | Sum.inl .RevertConflicts => .value (some "请先合并和提交改动，然后才能完成逆转提交。")
    | Sum.inl .EmptyRebasePatch => .value (some "没有可应用的改动。")
    | Sum.inl .NoMatchingRemoteBranch => .value (some "当前分支没有对应的远程分支。")
    | Sum.inl .NothingToCommit => .value (some "没有可提交的改动。")
    | Sum.inl .NoSubmoduleMapping => .value (some "子模块已从 .gitmodules 移除，但它的文件夹尚未删除，请删除文件夹，提交改动，然后重试。")
    | Sum.inl .SubmoduleRepositoryDoesNotExist => .value (some "子模块指向一个不存在的位置。")
    | Sum.inl .InvalidSubmoduleSHA => .value (some "子模块指向一个不存在的提交。")
    | Sum.inl .LocalPermissionDenied => .value (some "没有访问权限。")
    | Sum.inl .InvalidMerge => .value (some "该内容不能合并。")
    | Sum.inl .InvalidRebase => .value (some "该内容不能重构。")
    | Sum.inl .NonFastForwardMergeIntoEmptyHead => .value (some "该合并不是快进合并，无法在空分支上执行。")
    | Sum.inl .PatchDoesNotApply => .value (some "该改动与仓库中的文件冲突。")
    | Sum.inl .BranchAlreadyExists => .value (some "同名分支已存在。")
    | Sum.inl .BadRevision => .value (some "无效修订。")
    | Sum.inl .NotAGitRepository => .value (some "这不是 Git 仓库。")
    | Sum.inl .ProtectedBranchForcePush => .value (some "该分支受保护，不允许强制推送。")
    | Sum.inl .ProtectedBranchRequiresReview => .value (some "该分支受保护，任何更改都需要审核批准，你需要为此创建拉取请求。")
    | Sum.inl .PushWithFileSizeExceedingLimit => .value (some "推送包含了大小超过 100MB 的文件，超过 GitHub 文件大小限制，请从历史记录中删除过大的文件后重试。")
    | Sum.inl .HexBranchNameRejected => .value (some "分支名称不能是 40 位十六进制字符串，这与 Git 对象的格式有冲突。")
    | Sum.inl .ForcePushRejected => .value (some "该分支拒绝了强制推送。")
    | Sum.inl .InvalidRefLength => .value (some "引用的长度不能超过 255 字符。")
    | Sum.inl .CannotMergeUnrelatedHistories => .value (some "无法合并从不相关的历史记录。")
    | Sum.inl .PushWithPrivateEmail => .value (some "无法推送，提交的邮箱在 GitHub 上设为私有。如需继续，请访问 https://github.com/settings/emails 取消勾选 \"保持我的邮箱地址为私有\"，然后回来继续提交。提交完成后可以重新勾选。")
    | Sum.inl .LFSAttributeDoesNotMatch => .value (some "全局 Git 配置文件中的 Git LFS 属性与当前不符。")
    | Sum.inl .ProtectedBranchDeleteRejected => .value (some "该分支受保护，不能从远程端删除。")
    | Sum.inl .ProtectedBranchRequiredStatus => .value (some "状态检查失败，推送已被远程服务器拒绝。")
    | Sum.inl .BranchRenameFailed => .value (some "无法重命名该分支。")
    | Sum.inl .PathDoesNotExist => .value (some "该路径不存在。")
    | Sum.inl .InvalidObjectName => .value (some "Git 仓库中找不到该对象。")
    | Sum.inl .OutsideRepository => .value (some "该路径在仓库中无效。")
    | Sum.inl .LockFileAlreadyExists => .value (some "仓库中已存在锁文件，该操作被阻止。")
    | Sum.inl .NoMergeToAbort => .value (some "当前没有合并操作，不需要停止。")
    | Sum.inl .NoExistingRemoteBranch => .value (some "远程分支不存在。")
    | Sum.inl .LocalChangesOverwritten => .value (some "当前有未提交的文件改动，如果切换分支会被覆盖导致丢失，因此请先提交或暂存这些改动。")
    | Sum.inl .UnresolvedConflicts => .value (some "当前仍有冲突未解决。")
    | Sum.inl .ConfigLockFileAlreadyExists => .value none
    | Sum.inl .RemoteAlreadyExists => .value none
    | Sum.inl .TagAlreadyExists => .value (some "同名标签已存在。")
    | Sum.inl .MergeWithLocalChanges => .value none
    | Sum.inl .RebaseWithLocalChanges => .value none
    | Sum.inl .GPGFailedToSignData => .value none
    | Sum.inl .ConflictModifyDeletedInBranch => .value none
    | Sum.inl .MergeCommitNoMainlineOption => .value none
    | Sum.inl .UnsafeDirectory => .value none
    | Sum.inl .PathExistsButNotInRef => .value none
    | e => .assertNeverCalled ("未知错误：" ++ dugiteErrorValueText e)

/-- The value a DescriberOutcome yields when it is not the assertion
branch; used in theorem statements. -/
def describerValue : DescriberOutcome → Option String
  | .value d => d
  | .assertNeverCalled _ => none

/-- Splits a character list at every character satisfying the break
predicate; the accumulator holds the current segment reversed. -/
def splitCharAux (isBreak : Char → Bool) : List Char → List Char → List String
  | [], acc => [String.mk acc.reverse]
  | c :: rest, acc =>
    if isBreak c then String.mk acc.reverse :: splitCharAux isBreak rest []
    else splitCharAux isBreak rest (c :: acc)

/-- The lines of a text in the sense of a JavaScript multiline regex:
segments delimited by the line terminators newline and carriage
return (the rare unicode line separators are outside the model, which
covers the ASCII diagnostics Git emits in the C locale). -/
def splitLines (s : String) : List String :=
  splitCharAux (fun c => c == '\n' || c == '\r') s.toList []

/-- Splits a path on the slash separator. -/
def splitSlash (s : String) : List String :=
  splitCharAux (fun c => c == '/') s.toList []

/-- Whether the needle occurs as a contiguous run inside the haystack,
the containment test of a plain-text pattern. -/
def containsRun (needle : List Char) : List Char → Bool
  | [] => needle.isEmpty
  | c :: rest => needle.isPrefixOf (c :: rest) || containsRun needle rest

/-- Whether one string contains another as a substring. -/
def containsText (hay needle : String) : Bool :=
  containsRun needle.toList hay.toList

/-- The shortest nonempty prefix p of the input such that the input is
p followed by the given suffix: the lazy one-or-more capture of a
regular expression anchored on the right by that suffix. -/
def splitBeforeSuffix (sfx : List Char) : List Char → Option (List Char)
  | [] => none
  | c :: rest =>
    if rest = sfx then some [c]
    else (splitBeforeSuffix sfx rest).map (c :: ·)

/-- The constant prefix of the config-lock-file diagnostic line. -/
def lockLinePre : String := "error: could not lock config file "

/-- The constant suffix of the config-lock-file diagnostic line. -/
def lockLineSuf : String := ": File exists"

/-- Matches one line against the anchored pattern of lockFilePathRe
(source line 512): on success yields the lazily captured config file
path between the constant prefix and suffix. -/
def lockLineCapture (line : String) : Option String :=
  let cs := line.toList
  if lockLinePre.toList.isPrefixOf cs then
    (splitBeforeSuffix lockLineSuf.toList (cs.drop lockLinePre.toList.length)).map
      fun p => String.mk p
  else none

/-- The exec of the multiline regex lockFilePathRe over a whole text:
the capture of the first line that matches. -/
def lockFilePathReExec (s : String) : Option String :=
  (splitLines s).findSome? lockLineCapture

/-- Whether a text has a line matching the config-lock-file pattern. -/
def hasLockLine (s : String) : Bool :=
  (lockFilePathReExec s).isSome

/-- Replaces the first occurrence of a character, the semantics of the
JavaScript string replace with a single-character string pattern. -/
def replaceFirstChar (target repl : Char) : List Char → List Char
  | [] => []
  | c :: rest =>
    if c == target then repl :: rest
    else c :: replaceFirstChar target repl rest

/-- Whether a POSIX path is absolute. -/
def isAbsolutePath (p : String) : Bool :=
  match p.toList with
  | '/' :: _ => true
  | _ => false

/-- Removes empty, current-directory and parent-directory components
of an absolute path; the accumulator holds kept components reversed,
and a parent-directory component at the root is dropped. -/
def normalizeComponents : List String → List String → List String
  | [], acc => acc.reverse
  | c :: rest, acc =>
    if c = "" || c = "." then normalizeComponents rest acc
    else if c = ".." then normalizeComponents rest acc.tail
    else normalizeComponents rest (c :: acc)

/-- Normalization of an absolute POSIX path. -/
def normalizeAbsolute (p : String) : String :=
  "/" ++ String.intercalate "/" (normalizeComponents (splitSlash p) [])

/-- Model of the Node path resolve operation (POSIX flavor) for the two
segments the source passes: the rightmost absolute segment wins and the
result is normalized.  When neither segment is absolute Node would
additionally involve the process working directory; the model resolves
such input against the root, a case no claim exercises. -/
def pathResolve (base p : String) : String :=
  if isAbsolutePath p then normalizeAbsolute p
  else if isAbsolutePath base then normalizeAbsolute (base ++ "/" ++ p)
  else normalizeAbsolute ("/" ++ base ++ "/" ++ p)

/-- parseConfigLockFilePathFromError (source lines 520 to 535): runs
the lock-file regex over stderr and, on a match, resolves the captured
config file path against the working-directory path of the result,
with the lock suffix appended; on Windows a leading forward slash of
the capture would first be replaced by a backslash. -/
def parseConfigLockFilePathFromError (result : IGitResult) : Option String :=
  match lockFilePathReExec (coerceToString result.stderr) with
  | none => none
  | some captured =>
    let normalized :=
      if win32Platform then String.mk (replaceFirstChar '/' '\\' captured.toList)
      else captured
    some (pathResolve result.path (normalized ++ ".lock"))

/-- isConfigFileLockError (source lines 505 to 510): whether a thrown
failure is a structured GitError whose parsed code is the
config-lock-file-already-exists member. -/
def isConfigFileLockError (error : GitException) : Bool :=
  match error with
  | .gitError g => g.result.gitError == some DugiteError.ConfigLockFileAlreadyExists
  | _ => false

/-- Modelled from the spec: the dugite parseError classifier is an
external import whose pattern table lives outside this repository.  The
spec (section 4.3) describes it as a first-match-wins ordered table and
names these entries: the config-lock-file line pattern mapping to the
config-lock code, the publickey permission-denied text mapping to the
SSH authentication failure, and the rejected non-fast-forward push
text mapping to the push-not-fast-forward code.  Unmatched text yields
no code. -/
def parseErrorModel (text : String) : Option DugiteError :=
  if hasLockLine text then some .ConfigLockFileAlreadyExists
  else if containsText text "Permission denied (publickey)" then
    some .SSHAuthenticationFailed
  else if containsText text "! [rejected]" && containsText text "non-fast-forward" then
    some .PushNotFastForward
  else none

/-- Modelled from the spec: the dugite parseBadConfigValueErrorInfo
helper is an external import; the spec (section 4.4) says only that a
dedicated sub-pattern extracts the offending config key and value.  The
model used to instantiate witnesses extracts nothing. -/
def parseBadConfigValueErrorInfoModel : String → Option ConfigValueInfo :=
  fun _ => none

/-- Field-wise JavaScript object spread for one optional key: a key
present in the overriding object wins, an absent key keeps the
default. -/
def mergeOptField {α : Type} (d o : Option α) : Option α :=
  match o with
  | some v => some v
  | none => d

/-- The defaultOptions object of the git function (source lines 345 to
349): success exit codes default to the singleton zero, expected errors
to the empty set, and the maximum buffered output size to Infinity for
the binary encoding and to the Node maximum string length otherwise. -/
def gitDefaultOptions (options : Option IGitExecutionOptions) : IGitExecutionOptions where
  successExitCodes := some {0}
  expectedErrors := some ∅
  encoding := none
  maxBuffer := some
    (if (options.bind fun o => o.encoding) = some "buffer" then .infinity
     else .kStringMaxLength)
  env := none
  isBackgroundTask := none

/-- The opts object of the git function (source line 351): the spread
of the caller-supplied options over the defaults. -/
def mergedOpts (options : Option IGitExecutionOptions) : IGitExecutionOptions :=
  let d := gitDefaultOptions options
  match options with
  | none => d
  | some o =>
    { successExitCodes := mergeOptField d.successExitCodes o.successExitCodes
      expectedErrors := mergeOptField d.expectedErrors o.expectedErrors
      encoding := mergeOptField d.encoding o.encoding
      maxBuffer := mergeOptField d.maxBuffer o.maxBuffer
      env := mergeOptField d.env o.env
      isBackgroundTask := mergeOptField d.isBackgroundTask o.isBackgroundTask }

/-- The success-exit-code set in force after the merge: the
caller-supplied set when present, else the singleton zero. -/
def configuredSuccessExitCodes (options : Option IGitExecutionOptions) : Finset Int :=
  (options.bind fun o => o.successExitCodes).getD {0}

/-- The expected-error set in force after the merge: the
caller-supplied set when present, else empty. -/
def configuredExpectedErrors (options : Option IGitExecutionOptions) : Finset DugiteError :=
  (options.bind fun o => o.expectedErrors).getD ∅

/-- The acceptable-exit-code test of the git function (source lines
422 to 424), including the defensive guard for an absent set. -/
def acceptableExitCodeOf (opts : IGitExecutionOptions) (exitCode : Int) : Bool :=
  match opts.successExitCodes with
  | some s => decide (exitCode ∈ s)
  | none => false

/-- The acceptable-error test of the git function (source lines 443 to
446): true unless a parsed error exists together with an expected-error
set that does not contain it. -/
def acceptableErrorOf (opts : IGitExecutionOptions) (gitError : Option DugiteError) : Bool :=
  match gitError, opts.expectedErrors with
  | some e, some expected => decide (e ∈ expected)
  | _, _ => true

/-- The classifier chain of the git function (source lines 426 to
429): parse stderr first, fall back to stdout. -/
def classifyChain (parseError : String → Option DugiteError)
    (stderr stdout : String) : Option DugiteError :=
  match parseError (coerceToString stderr) with
  | some e => some e
  | none => parseError (coerceToString stdout)

/-- The environment assigned to the execution options before the
subprocess spawns (source lines 379 to 387): the ambient environment
supplied by the trampoline collaborator is merged over the
caller-supplied env, and the combination is spread over an object
binding TERM to dumb. -/
def gitSpawnEnv (options : Option IGitExecutionOptions) (trampolineEnv : EnvMap) : EnvMap :=
  let opts := mergedOpts options
  let combinedEnv := mergeEnv (opts.env.getD emptyEnv) trampolineEnv
  mergeEnv (fun k => if k = "TERM" then some "dumb" else none) combinedEnv

/-- The completion tail of the git function (source lines 436 to 471):
build the extended result and either hand it back or throw the
structured GitError constructed from it, the argument vector and the
terminal-output snapshot.  The condensed diagnostic logging of the
source is observational and not modelled. -/
def gitFinish (opts : IGitExecutionOptions) (args : List String)
    (path terminalOutput : String) (exitCode : Int) (stdout stderr : String)
    (gitError : Option DugiteError) (gitErrorDescription : Option String) :
    Except GitException IGitResult :=
  let gitResult : IGitResult :=
    { exitCode := exitCode, stdout := stdout, stderr := stderr,
      gitError := gitError, gitErrorDescription := gitErrorDescription,
      path := path }
  let acceptableExitCode := acceptableExitCodeOf opts exitCode
  let acceptableError := acceptableErrorOf opts gitError
  if (gitError.isSome && acceptableError) || acceptableExitCode then
    .ok gitResult
  else
    .error (.gitError (GitError.make gitResult args terminalOutput))

/-- The git function (source lines 339 to 477).  The dugite exec, the
trampoline environment resolver and the stream pipeline are external:
one invocation is summarized by the resolved trampoline environment,
the outcome of the subprocess layer and the terminal-output snapshot
the pipeline captured; the classifier and the bad-config-value parser
of dugite are passed as parameters.  The environment handed to the
subprocess is gitSpawnEnv of the same inputs.  A Node errno exception
is rethrown as a plain error naming the operation, the
max-buffer-exceeded exec error is rethrown with the operation name
appended, any other spawn failure propagates; a completed run is
classified (only when the exit code is not acceptable), described and
finished. -/
def git (args : List String) (path name : String)
    (options : Option IGitExecutionOptions)
    (parseError : String → Option DugiteError)
    (parseBadConfigValueErrorInfo : String → Option ConfigValueInfo)
    (trampolineEnv : EnvMap) (outcome : ExecOutcome) (terminalOutput : String) :
    Except GitException IGitResult :=
  let opts := mergedOpts options
  let _spawnEnv := gitSpawnEnv options trampolineEnv
  match outcome with
  | .errnoException code =>
    .error (.plainError ("Failed to execute " ++ name ++ ": " ++ code))
  | .maxBufferExceeded message stdout stderr =>
    .error (.execError (message ++ " for " ++ name) stdout stderr)
  | .otherFailure message => .error (.otherError message)
  | .completed exitCode stdout stderr =>
    let gitError : Option DugiteError :=
      if acceptableExitCodeOf opts exitCode then none
      else classifyChain parseError stderr stdout
    match gitError with
    | none => gitFinish opts args path terminalOutput exitCode stdout stderr none none
    | some e =>
      match getDescriptionForError parseBadConfigValueErrorInfo (Sum.inl e)
          (coerceToString stderr) with
      | .assertNeverCalled m => .error (.otherError m)
      | .value d => gitFinish opts args path terminalOutput exitCode stdout stderr (some e) d

/-- Every genuine enumeration member makes the describer yield a value
(never the defensive assertion); the three authentication codes hit the
consolidated message, every other member hits its own case. -/
theorem describer_members_yield_value
    (pbc : String → Option ConfigValueInfo) (e : DugiteError) (stderr : String) :
    ∃ d, getDescriptionForError pbc (Sum.inl e) stderr = .value d := by
  cases e <;> try exact ⟨_, rfl⟩
  cases h : pbc stderr with
  | none =>
    exact ⟨some "Git 配置文件的值有误。",
      by simp [getDescriptionForError, isAuthFailureValue, isAuthFailureError, h]⟩
  | some info =>
    exact ⟨some ("Git 配置文件中键 \x27" ++ info.key ++ "\x27 的值 \x27"
        ++ info.value ++ "\x27 有误。"),
      by simp [getDescriptionForError, isAuthFailureValue, isAuthFailureError, h]⟩

/-- After the option merge the success-exit-code set is always present:
the caller-supplied set, else the default singleton zero. -/
theorem mergedOpts_successExitCodes (options : Option IGitExecutionOptions) :
    (mergedOpts options).successExitCodes = some (configuredSuccessExitCodes options) := by
  cases options with
  | none => rfl
  | some o =>
    cases h : o.successExitCodes <;>
      simp [mergedOpts, mergeOptField, gitDefaultOptions, configuredSuccessExitCodes, h]

/-- After the option merge the expected-error set is always present:
the caller-supplied set, else the default empty set. -/
theorem mergedOpts_expectedErrors (options : Option IGitExecutionOptions) :
    (mergedOpts options).expectedErrors = some (configuredExpectedErrors options) := by
  cases options with
  | none => rfl
  | some o =>
    cases h : o.expectedErrors <;>
      simp [mergedOpts, mergeOptField, gitDefaultOptions, configuredExpectedErrors, h]

/-- The acceptable-exit-code test against the merged options decides
membership in the configured success set. -/
theorem acceptableExitCodeOf_merged (options : Option IGitExecutionOptions) (ec : Int) :
    acceptableExitCodeOf (mergedOpts options) ec
      = decide (ec ∈ configuredSuccessExitCodes options) := by
  simp [acceptableExitCodeOf, mergedOpts_successExitCodes]

/-- The acceptable-error test against the merged options, on a parsed
error, decides membership in the configured expected-error set. -/
theorem acceptableErrorOf_merged (options : Option IGitExecutionOptions) (e : DugiteError) :
    acceptableErrorOf (mergedOpts options) (some e)
      = decide (e ∈ configuredExpectedErrors options) := by
  simp [acceptableErrorOf, mergedOpts_expectedErrors]

/-- Complete characterization of git on a completed subprocess run: an
acceptable exit code returns the unclassified result; otherwise the
classifier chain runs, an unclassified or unexpected failure throws the
structured GitError built from the extended result, the argument vector
and the terminal snapshot, and an expected classified failure returns
the classified result. -/
theorem git_completed_eq (args : List String) (path name : String)
    (options : Option IGitExecutionOptions) (pe : String → Option DugiteError)
    (pbc : String → Option ConfigValueInfo) (tramp : EnvMap)
    (ec : Int) (so se t : String) :
    git args path name options pe pbc tramp (.completed ec so se) t =
      if ec ∈ configuredSuccessExitCodes options then
        .ok ⟨ec, so, se, none, none, path⟩
      else
        match classifyChain pe se so with
        | none => .error (.gitError (GitError.make ⟨ec, so, se, none, none, path⟩ args t))
        | some e =>
          let d := describerValue (getDescriptionForError pbc (Sum.inl e) se)
          if e ∈ configuredExpectedErrors options then .ok ⟨ec, so, se, some e, d, path⟩
          else .error (.gitError (GitError.make ⟨ec, so, se, some e, d, path⟩ args t))
    := by
  by_cases h : ec ∈ configuredSuccessExitCodes options
  · simp [git, gitFinish, acceptableExitCodeOf_merged, h, acceptableErrorOf]
  · cases hc : classifyChain pe se so with
    | none =>
      simp [git, gitFinish, acceptableExitCodeOf_merged, h, hc, acceptableErrorOf]
    | some e =>
      obtain ⟨d0, hd⟩ := describer_members_yield_value pbc e se
      by_cases hm : e ∈ configuredExpectedErrors options <;>
        simp [git, gitFinish, acceptableExitCodeOf_merged, acceptableErrorOf_merged,
          h, hc, hd, hm, describerValue, coerceToString]

/-- C5: getDescriptionForError handles every member of the closed
error enumeration with a case yielding a description value (string or
null), so no enum member ever reaches the failing default branch; a
runtime value outside the enumeration falls through every case and
triggers the loud unknown-error assertion instead of a generic
description. -/
theorem getDescriptionForError_exhaustive :
    (∀ (pbc : String → Option ConfigValueInfo) (e : DugiteError) (stderr : String),
      ∃ d, getDescriptionForError pbc (Sum.inl e) stderr = .value d)
    ∧ (∀ (pbc : String → Option ConfigValueInfo) (s stderr : String),
      getDescriptionForError pbc (Sum.inr s) stderr
        = .assertNeverCalled ("未知错误：" ++ s)) :=
  ⟨describer_members_yield_value, fun _ _ _ => rfl⟩

/-- C1: on a completed invocation, git returns a result normally
exactly when the exit code is in the configured success set or a
classified error code exists and is in the configured expected-error
set; in every other completion it throws the structured GitError
constructed from the extended result, the original argument vector and
the terminal-output snapshot. -/
theorem git_ok_iff_policy (args : List String) (path name : String)
    (options : Option IGitExecutionOptions) (pe : String → Option DugiteError)
    (pbc : String → Option ConfigValueInfo) (tramp : EnvMap)
    (ec : Int) (so se t : String) :
    ((∃ res, git args path name options pe pbc tramp (.completed ec so se) t = .ok res)
      ↔ ec ∈ configuredSuccessExitCodes options
        ∨ ∃ e, classifyChain pe se so = some e ∧ e ∈ configuredExpectedErrors options)
    ∧ (¬(ec ∈ configuredSuccessExitCodes options
          ∨ ∃ e, classifyChain pe se so = some e ∧ e ∈ configuredExpectedErrors options) →
        git args path name options pe pbc tramp (.completed ec so se) t
          = .error (.gitError (GitError.make
              ⟨ec, so, se, classifyChain pe se so,
                (classifyChain pe se so).bind fun e =>
                  describerValue (getDescriptionForError pbc (Sum.inl e) se),
                path⟩ args t))) := by
  rw [git_completed_eq]
  by_cases h : ec ∈ configuredSuccessExitCodes options
  · constructor
    · simp [h]
    · intro hn; exact absurd (Or.inl h) hn
  · cases hc : classifyChain pe se so with
    | none => simp [h, hc]
    | some e =>
      by_cases hm : e ∈ configuredExpectedErrors options
      · simp [h, hc, hm]
      · simp [h, hc, hm]

/-- Witness for C1 at a concrete failing invocation: exit code 1 with
no classifiable output throws the structured GitError. -/
theorem git_ok_iff_policy_witness :
    git ["status"] "/r" "status" none parseErrorModel parseBadConfigValueErrorInfoModel
        emptyEnv (.completed 1 "" "") ""
      = .error (.gitError (GitError.make ⟨1, "", "", none, none, "/r"⟩ ["status"] "")) := by
  have h := (git_ok_iff_policy ["status"] "/r" "status" none parseErrorModel
    parseBadConfigValueErrorInfoModel emptyEnv 1 "" "" "").2 (by decide)
  rw [h]
  exact congrArg Except.error (by decide)

/-- C2: when the exit code is in the configured success set, git
returns the result with null parsed error and null description, and the
returned value is independent of the classifier, which is not
consulted. -/
theorem git_success_exit_null_error (args : List String) (path name : String)
    (options : Option IGitExecutionOptions) (pe pe' : String → Option DugiteError)
    (pbc : String → Option ConfigValueInfo) (tramp : EnvMap)
    (ec : Int) (so se t : String)
    (h : ec ∈ configuredSuccessExitCodes options) :
    git args path name options pe pbc tramp (.completed ec so se) t
        = .ok ⟨ec, so, se, none, none, path⟩
      ∧ git args path name options pe pbc tramp (.completed ec so se) t
        = git args path name options pe' pbc tramp (.completed ec so se) t := by
  rw [git_completed_eq, git_completed_eq]
  simp [h]

/-- Witness for C2 at exit code zero with default options. -/
theorem git_success_exit_null_error_witness :
    git ["status"] "/repo" "status" none parseErrorModel
        parseBadConfigValueErrorInfoModel emptyEnv
        (.completed 0 "on branch main" "warning: text") "on branch main"
      = .ok ⟨0, "on branch main", "warning: text", none, none, "/repo"⟩ :=
  (git_success_exit_null_error ["status"] "/repo" "status" none parseErrorModel
    parseErrorModel parseBadConfigValueErrorInfoModel emptyEnv 0 "on branch main"
    "warning: text" "on branch main" (by decide)).1

/-- C7: the option merge defaults the success set to the singleton
zero, the expected-error set to the empty set, and the maximum buffered
output size to Infinity for the binary buffer encoding and to the Node
maximum string length otherwise, whenever the caller leaves the
respective field unset. -/
theorem mergedOpts_default_policy (options : Option IGitExecutionOptions) :
    ((options.bind fun o => o.successExitCodes) = none →
        (mergedOpts options).successExitCodes = some {0})
    ∧ ((options.bind fun o => o.expectedErrors) = none →
        (mergedOpts options).expectedErrors = some ∅)
    ∧ ((options.bind fun o => o.maxBuffer) = none →
        (mergedOpts options).maxBuffer = some
          (if (options.bind fun o => o.encoding) = some "buffer" then .infinity
           else .kStringMaxLength)) := by
  refine ⟨?_, ?_, ?_⟩
  · intro h
    cases options with
    | none => rfl
    | some o =>
      have h' : o.successExitCodes = none := h
      simp [mergedOpts, mergeOptField, gitDefaultOptions, h']
  · intro h
    cases options with
    | none => rfl
    | some o =>
      have h' : o.expectedErrors = none := h
      simp [mergedOpts, mergeOptField, gitDefaultOptions, h']
  · intro h
    cases options with
    | none => rfl
    | some o =>
      have h' : o.maxBuffer = none := h
      simp [mergedOpts, mergeOptField, gitDefaultOptions, h']

/-- Witness for C7 with no options supplied: text encoding, so the cap
is the Node maximum string length. -/
theorem mergedOpts_default_policy_witness :
    (mergedOpts none).successExitCodes = some {0}
    ∧ (mergedOpts none).expectedErrors = some ∅
    ∧ (mergedOpts none).maxBuffer = some .kStringMaxLength := by
  obtain ⟨h1, h2, h3⟩ := mergedOpts_default_policy none
  exact ⟨h1 rfl, h2 rfl, by simpa using h3 rfl⟩

/-- C8: a spawn-level errno failure is rethrown as a plain error whose
message names the attempted operation and the OS error code, and the
result is independent of the classifier, which is never applied. -/
theorem git_errno_failure (args : List String) (path name : String)
    (options : Option IGitExecutionOptions) (pe pe' : String → Option DugiteError)
    (pbc : String → Option ConfigValueInfo) (tramp : EnvMap) (code t : String) :
    git args path name options pe pbc tramp (.errnoException code) t
        = .error (.plainError ("Failed to execute " ++ name ++ ": " ++ code))
      ∧ git args path name options pe pbc tramp (.errnoException code) t
        = git args path name options pe' pbc tramp (.errnoException code) t :=
  ⟨rfl, rfl⟩

/-- C9: the isRawMessage flag of a constructed GitError is false
exactly in the two branches whose message is not raw command output
(the parsed description and the generic unknown-error fallback), and
true exactly in the three branches whose message is taken verbatim from
the terminal snapshot, stderr or stdout; the disjunction enumerates the
five provenance branches of the constructor exhaustively. -/
theorem gitError_isRawMessage_provenance (result : IGitResult) (args : List String)
    (t : String) :
    (∃ d, result.gitErrorDescription = some d
        ∧ (GitError.make result args t).message = d
        ∧ (GitError.make result args t).isRawMessage = false)
    ∨ (result.gitErrorDescription = none ∧ t.length > 0
        ∧ (GitError.make result args t).message = t
        ∧ (GitError.make result args t).isRawMessage = true)
    ∨ (result.gitErrorDescription = none ∧ ¬t.length > 0 ∧ result.stderr.length ≠ 0
        ∧ (GitError.make result args t).message = result.stderr
        ∧ (GitError.make result args t).isRawMessage = true)
    ∨ (result.gitErrorDescription = none ∧ ¬t.length > 0 ∧ result.stderr.length = 0
        ∧ result.stdout.length ≠ 0
        ∧ (GitError.make result args t).message = result.stdout
        ∧ (GitError.make result args t).isRawMessage = true)
    ∨ (result.gitErrorDescription = none ∧ ¬t.length > 0 ∧ result.stderr.length = 0
        ∧ result.stdout.length = 0
        ∧ (GitError.make result args t).message
            = "Unknown error (exit code " ++ toString result.exitCode ++ ")"
        ∧ (GitError.make result args t).isRawMessage = false) := by
  cases hd : result.gitErrorDescription with
  | some d =>
    exact Or.inl ⟨d, rfl, by simp [GitError.make, hd], by simp [GitError.make, hd]⟩
  | none =>
    by_cases ht : t.length > 0
    · exact Or.inr (Or.inl ⟨rfl, ht,
        by simp [GitError.make, hd, ht], by simp [GitError.make, hd, ht]⟩)
    · by_cases he : result.stderr.length = 0
      · by_cases ho : result.stdout.length = 0
        · exact Or.inr (Or.inr (Or.inr (Or.inr ⟨rfl, ht, he, ho,
            by simp [GitError.make, coerceToString, hd, ht, he, ho],
            by simp [GitError.make, coerceToString, hd, ht, he, ho]⟩)))
        · exact Or.inr (Or.inr (Or.inr (Or.inl ⟨rfl, ht, he, ho,
            by simp [GitError.make, coerceToString, hd, ht, he, ho],
            by simp [GitError.make, coerceToString, hd, ht, he, ho]⟩)))
      · exact Or.inr (Or.inr (Or.inl ⟨rfl, ht, he,
          by simp [GitError.make, coerceToString, hd, ht, he],
          by simp [GitError.make, coerceToString, hd, ht, he]⟩))

/-- C10: when no line of stderr matches the config-lock-file pattern,
parseConfigLockFilePathFromError returns null; the embedding is a total
function, so it cannot throw. -/
theorem parseConfigLock_no_match_none (result : IGitResult)
    (h : ∀ l ∈ splitLines result.stderr, lockLineCapture l = none) :
    parseConfigLockFilePathFromError result = none := by
  have hre : lockFilePathReExec (coerceToString result.stderr) = none := by
    simpa [lockFilePathReExec, coerceToString, List.findSome?_eq_none_iff] using h
  simp [parseConfigLockFilePathFromError, hre]

/-- Witness for C10 on a stderr with no lock-file line. -/
theorem parseConfigLock_no_match_none_witness :
    parseConfigLockFilePathFromError
        ⟨128, "", "fatal: not a git repository", none, none, "/r"⟩ = none :=
  parseConfigLock_no_match_none
    ⟨128, "", "fatal: not a git repository", none, none, "/r"⟩ (by decide)

/-- C3 counterexample: in a failing unclassified invocation whose
terminal snapshot is nonempty and differs from stderr (stdout produced
output too), the thrown message is the terminal snapshot, not the raw
stderr text the claim requires. -/
theorem git_unclassified_message_cx :
    thrownGitErrorMessage (git ["push"] "/r" "push" none parseErrorModel
        parseBadConfigValueErrorInfoModel emptyEnv (.completed 1 "A" "B") "AB")
      = some "AB"
    ∧ ("AB" : String) ≠ "B" := by
  exact ⟨by decide, by decide⟩

/-- C3 amended: in a failing invocation with no classified code, the
thrown GitError message is the terminal-output snapshot when nonempty,
else the raw stderr, else the raw stdout, else the generic
unknown-error text with the exit code. -/
theorem git_unclassified_message (args : List String) (path name : String)
    (options : Option IGitExecutionOptions) (pe : String → Option DugiteError)
    (pbc : String → Option ConfigValueInfo) (tramp : EnvMap)
    (ec : Int) (so se t : String)
    (hclass : classifyChain pe se so = none)
    (hexit : ec ∉ configuredSuccessExitCodes options) :
    git args path name options pe pbc tramp (.completed ec so se) t
        = .error (.gitError (GitError.make ⟨ec, so, se, none, none, path⟩ args t))
      ∧ (GitError.make ⟨ec, so, se, none, none, path⟩ args t).message
        = (if t.length > 0 then t
           else if se.length ≠ 0 then se
           else if so.length ≠ 0 then so
           else "Unknown error (exit code " ++ toString ec ++ ")") := by
  constructor
  · rw [git_completed_eq]
    simp [hexit, hclass]
  · by_cases ht : t.length > 0
    · simp [GitError.make, ht]
    · by_cases he : se.length = 0
      · by_cases ho : so.length = 0
        · simp [GitError.make, coerceToString, ht, he, ho]
        · simp [GitError.make, coerceToString, ht, he, ho]
      · simp [GitError.make, coerceToString, ht, he]

/-- Witness for the amended C3: terminal snapshot equal to the sole
stderr text, message is that text. -/
theorem git_unclassified_message_witness :
    git ["fetch"] "/w" "fetch" none parseErrorModel parseBadConfigValueErrorInfoModel
        emptyEnv (.completed 128 "" "unrecognized stderr text") "unrecognized stderr text"
      = .error (.gitError (GitError.make
          ⟨128, "", "unrecognized stderr text", none, none, "/w"⟩
          ["fetch"] "unrecognized stderr text"))
    ∧ (GitError.make ⟨128, "", "unrecognized stderr text", none, none, "/w"⟩
        ["fetch"] "unrecognized stderr text").message = "unrecognized stderr text" := by
  have h := git_unclassified_message ["fetch"] "/w" "fetch" none parseErrorModel
    parseBadConfigValueErrorInfoModel emptyEnv 128 "" "unrecognized stderr text"
    "unrecognized stderr text" (by decide) (by decide)
  exact ⟨h.1, by rw [h.2]; decide⟩

/-- C4 counterexample: a caller-supplied env binding TERM survives the
spread, because the combined environment is spread after the dumb
binding; the spawned env then carries the caller value, not dumb. -/
theorem gitSpawnEnv_term_not_forced :
    gitSpawnEnv
        (some { env := some fun k => if k = "TERM" then some "xterm-256color" else none })
        emptyEnv "TERM"
      = some "xterm-256color"
    ∧ gitSpawnEnv
        (some { env := some fun k => if k = "TERM" then some "xterm-256color" else none })
        emptyEnv "TERM"
      ≠ some "dumb" := by
  exact ⟨rfl, by decide⟩

/-- C4 amended: the spawned environment always binds TERM; the value is
dumb exactly when neither the caller env nor the resolved ambient
environment binds TERM, and otherwise it is the merged
(ambient-over-caller) value, which takes precedence over dumb. -/
theorem gitSpawnEnv_term_default (options : Option IGitExecutionOptions)
    (tramp : EnvMap) :
    gitSpawnEnv options tramp "TERM"
      = some ((mergeEnv (((mergedOpts options).env).getD emptyEnv) tramp "TERM").getD "dumb") := by
  change (match mergeEnv (((mergedOpts options).env).getD emptyEnv) tramp "TERM" with
    | some v => some v
    | none => if "TERM" = "TERM" then some "dumb" else none) = _
  cases h : mergeEnv (((mergedOpts options).env).getD emptyEnv) tramp "TERM" <;> simp

/-- C6 counterexample: a stderr that contains the scenario lock line
preceded by a different lock line; the regex takes the first matching
line, so the extracted path is the other lock file, not the one the
claim requires. -/
theorem parseConfigLock_first_line_wins :
    "error: could not lock config file /r/.git/config: File exists"
        ∈ splitLines "error: could not lock config file /other: File exists\nerror: could not lock config file /r/.git/config: File exists"
    ∧ parseConfigLockFilePathFromError
        ⟨1, "", "error: could not lock config file /other: File exists\nerror: could not lock config file /r/.git/config: File exists",
          some DugiteError.ConfigLockFileAlreadyExists, none, "/repo"⟩
      = some "/other.lock"
    ∧ ("/other.lock" : String) ≠ "/r/.git/config.lock" := by
  exact ⟨by decide, by decide, by decide⟩

/-- C6 amended: for every result whose stderr matches the lock-file
pattern with the scenario line as its first matching line (capture
equal to the scenario config path), the spec-modelled classifier yields
the config-lock-file-already-exists code and
parseConfigLockFilePathFromError returns the absolute lock path,
independently of the working-directory path of the result. -/
theorem configLock_scenario (result : IGitResult)
    (h : lockFilePathReExec (coerceToString result.stderr) = some "/r/.git/config") :
    parseErrorModel (coerceToString result.stderr)
        = some DugiteError.ConfigLockFileAlreadyExists
    ∧ parseConfigLockFilePathFromError result = some "/r/.git/config.lock" := by
  constructor
  · simp [parseErrorModel, hasLockLine, h]
  · rw [parseConfigLockFilePathFromError, h]
    have happ : ("/r/.git/config" ++ ".lock" : String) = "/r/.git/config.lock" := rfl
    have hwin : win32Platform = false := rfl
    simp only [hwin, if_false, happ, Bool.false_eq_true]
    have habs : isAbsolutePath "/r/.git/config.lock" = true := rfl
    simp only [pathResolve, habs, if_true]
    decide

/-- Witness for the amended C6: stderr consisting of exactly the
scenario lock line together with an arbitrary working directory. -/
theorem configLock_scenario_witness :
    parseErrorModel
        (coerceToString (IGitResult.stderr
          ⟨255, "", "error: could not lock config file /r/.git/config: File exists",
            none, none, "/repo"⟩))
        = some DugiteError.ConfigLockFileAlreadyExists
    ∧ parseConfigLockFilePathFromError
        ⟨255, "", "error: could not lock config file /r/.git/config: File exists",
          none, none, "/repo"⟩
      = some "/r/.git/config.lock" :=
  configLock_scenario
    ⟨255, "", "error: could not lock config file /r/.git/config: File exists",
      none, none, "/repo"⟩ (by decide)
